import Mathlib

/-!
Verification of the ssmd-mcp remote columnar query layer.

This file gives a shallow embedding of the Python modules
`src/ssmd_mcp/config.py`, `src/ssmd_mcp/gcs.py` and `src/ssmd_mcp/tools.py`.
External collaborators (the DuckDB engine, the filesystem, the `gsutil` and
`gcloud` subprocesses, the wall clock and the `datetime` library) are modelled
as oracles carried in an environment record; the repository's own control flow
is translated statement by statement.  Machine-level details kept faithful:
Python truthiness of strings (`""` is falsy), `str.replace` replacing every
occurrence, `str.rstrip` with a character set, `dict.get(k, default)`,
substring tests via `in`, and `re.sub` scanning left to right without overlap.
-/

namespace Ssmd

/-! ## Python string helpers -/

/-- A single-quote character, used to build SQL string literals. -/
def sq : String := "'"

/-- Substring test on character lists: some split position carries `pat` as a
prefix of the remainder.  This is Python's `pat in hay`. -/
def strContainsL (hay pat : List Char) : Bool :=
  (List.range (hay.length + 1)).any (fun i => pat.isPrefixOf (hay.drop i))

/-- Python's `pat in hay` substring containment on strings. -/
def strContains (hay pat : String) : Bool :=
  strContainsL hay.data pat.data

/-- Python's `s.rstrip(chars)`: drop trailing characters belonging to `chars`. -/
def pyRstrip (s : String) (chars : List Char) : String :=
  ⟨(s.data.reverse.dropWhile (fun c => chars.contains c)).reverse⟩

/-- Python's `\s` and the default `str.strip` whitespace set (ASCII). -/
def pyIsSpace (c : Char) : Bool :=
  c = ' ' || c = '\t' || c = '\n' || c = '\x0b' || c = '\x0c' || c = '\r'

/-- Python's `s.strip()`: drop leading and trailing whitespace. -/
def pyStrip (s : String) : String :=
  ⟨((s.data.dropWhile pyIsSpace).reverse.dropWhile pyIsSpace).reverse⟩

/-- Splitting a character list at every occurrence of `sep`, accumulating the
current piece in reverse. -/
def splitOnCharAux (sep : Char) : List Char → List Char → List (List Char)
  | [], acc => [acc.reverse]
  | c :: cs, acc =>
    if c = sep then acc.reverse :: splitOnCharAux sep cs []
    else splitOnCharAux sep cs (c :: acc)

/-- Python's `s.split(sep)` for a one-character separator. -/
def pySplit (s : String) (sep : Char) : List String :=
  (splitOnCharAux sep s.data []).map (fun l => ⟨l⟩)

/-- Python's `s.rstrip("/").split("/")[-1]`: the last path component. -/
def lastComponent (s : String) : String :=
  (pySplit (pyRstrip s ['/']) '/').getLastD ""

/-- Python's `repr` of a list of strings, as printed by
`f"{list(d.keys())}"`: `['a', 'b']`. -/
def pyReprStrList (xs : List String) : String :=
  "[" ++ String.intercalate ", " (xs.map (fun s => sq ++ s ++ sq)) ++ "]"

/-- Count of glob characters (asterisks) in a string. -/
def globCount (s : String) : Nat :=
  s.data.count '*'

/-! ## config.py: the `Config` dataclass.

Dictionaries become association lists; Python `dict.get(k, d)` becomes
`(l.lookup k).getD d` and `k in dict` becomes `(l.lookup k).isSome`. -/

structure Config where
  api_url : String := ""
  api_key : String := ""
  gcs_bucket : String := "ssmd-data"
  feed_paths : List (String × String) :=
    [("kalshi", "kalshi/kalshi/crypto"),
     ("kraken-futures", "kraken-futures/kraken-futures/futures"),
     ("polymarket", "polymarket/polymarket/markets")]
  feed_types : List (String × List String) :=
    [("kalshi", ["trade", "ticker"]),
     ("kraken-futures", ["trade", "ticker"]),
     ("polymarket", ["best_bid_ask", "last_trade_price", "price_change", "book"])]
  trade_ticker_col : List (String × String) :=
    [("kalshi", "market_ticker"),
     ("kraken-futures", "product_id"),
     ("polymarket", "asset_id")]
  trade_price_col : List (String × String) :=
    [("kalshi", "price"),
     ("kraken-futures", "price"),
     ("polymarket", "price")]
  trade_qty_col : List (String × Option String) :=
    [("kalshi", some "count"),
     ("kraken-futures", some "qty"),
     ("polymarket", none)]
  price_type : List (String × String) :=
    [("kalshi", "ticker"),
     ("kraken-futures", "ticker"),
     ("polymarket", "best_bid_ask")]

/-! ## gcs.py: paths -/

/-- `gcs.gcs_parquet_path`: build the GCS path for parquet files.  A glob path
when `hour` is `none`, a specific file path otherwise.  Unknown feeds fall back
to the feed name itself as prefix (`cfg.feed_paths.get(feed, feed)`). -/
def gcs_parquet_path (cfg : Config) (feed date_str file_type : String)
    (hour : Option String := none) : String :=
  let pfx := (cfg.feed_paths.lookup feed).getD feed
  let bucket := cfg.gcs_bucket
  match hour with
  | some h => "s3://" ++ bucket ++ "/" ++ pfx ++ "/" ++ date_str ++ "/" ++ file_type ++ "_" ++ h ++ ".parquet"
  | none => "s3://" ++ bucket ++ "/" ++ pfx ++ "/" ++ date_str ++ "/" ++ file_type ++ "_*.parquet"

/-- `gcs.gcs_gs_path`: the gs:// path for gsutil operations. -/
def gcs_gs_path (cfg : Config) (feed : String) (date_str : Option String := none) : String :=
  let pfx := (cfg.feed_paths.lookup feed).getD feed
  let bucket := cfg.gcs_bucket
  match date_str with
  | some d => "gs://" ++ bucket ++ "/" ++ pfx ++ "/" ++ d ++ "/"
  | none => "gs://" ++ bucket ++ "/" ++ pfx ++ "/"

/-! ## gcs.py: the credential cache (`_get_gcs_token`)

The module-level pair `_gcs_token` / `_gcs_token_time` becomes an explicit
state record; `datetime.now()` becomes an `Int` of seconds supplied by the
caller; the `gcloud` subprocess becomes a `HelperRun` oracle.  Python
truthiness of the cached token (`if _gcs_token and _gcs_token_time:`) is kept:
an empty string is falsy. -/

structure TokenState where
  gcs_token : Option String := none
  gcs_token_time : Option Int := none
deriving Repr, DecidableEq

/-- Outcome of `subprocess.run(["gcloud", ...], timeout=10)`: either the
process completed with a return code and stdout, or `FileNotFoundError` /
`TimeoutExpired` was raised. -/
inductive HelperRun where
  | completed (returncode : Int) (stdout : String)
  | raised
deriving Repr, DecidableEq

structure TokenOut where
  ret : Option String
  state : TokenState
  /-- whether the gcloud helper subprocess was invoked -/
  invoked : Bool
deriving Repr, DecidableEq

/-- The `try:` block of `_get_gcs_token`: invoke the gcloud helper; on
`returncode == 0` and nonempty stripped stdout, cache token and timestamp;
otherwise leave the cache unchanged and return `None`. -/
def gcloudFetch (now : Int) (run : HelperRun) (st : TokenState) : TokenOut :=
  match run with
  | .completed rc out =>
    if rc = 0 ∧ pyStrip out ≠ "" then
      { ret := some (pyStrip out)
        state := { gcs_token := some (pyStrip out), gcs_token_time := some now }
        invoked := true }
    else
      { ret := none, state := st, invoked := true }
  | .raised => { ret := none, state := st, invoked := true }

/-- `gcs._get_gcs_token`: reuse the cached token when it is truthy and less
than 1800 seconds old; otherwise invoke the gcloud helper. -/
def _get_gcs_token (now : Int) (run : HelperRun) (st : TokenState) : TokenOut :=
  match st.gcs_token, st.gcs_token_time with
  | some tok, some t =>
    if tok ≠ "" ∧ now - t < 1800 then
      { ret := some tok, state := st, invoked := false }
    else
      gcloudFetch now run st
  | _, _ => gcloudFetch now run st

/-! ## The environment: external collaborators as oracles

`exec` is `conn.execute` keyed by the SQL text; `gsutilLs` is `_gsutil_ls`
keyed by the gs:// path; `files` is the set of paths for which
`os.path.exists` holds; `downloadOk gs local` tells whether the local file
exists after a `_gsutil_download gs local` attempt (the Python code ignores
the helper's return value and re-checks `os.path.exists`); `tmpdir` is
`tempfile.gettempdir()`; `today` is `today_str()`. -/

/-- A query result row: column name to (stringified) value, as produced by
`dict(zip(cols, row))`. -/
abbrev Row := List (String × String)

/-- The DuckDB exceptions distinguished by `tools._try_query`. -/
inductive DuckExn where
  | ioException (msg : String)
  | catalogException (msg : String)
  | other (cls msg : String)
deriving Repr, DecidableEq

/-- `str(e)` for a caught exception. -/
def DuckExn.message : DuckExn → String
  | .ioException m => m
  | .catalogException m => m
  | .other _ m => m

/-- What `conn.execute(sql)` does: return rows (already converted through
`result.description` / `fetchall`) or raise. -/
inductive ExecOutcome where
  | ok (rows : List Row)
  | raise (e : DuckExn)
deriving Repr, DecidableEq

/-- Observable side effects (I/O) in the order they are performed. -/
inductive Eff where
  | connect
  | execSql (sql : String)
  | gsutilLs (path : String)
  | download (gs localPath : String)
deriving Repr, DecidableEq

structure Env where
  exec : String → ExecOutcome
  gsutilLs : String → List String
  files : List String
  downloadOk : String → String → Bool
  tmpdir : String
  today : String
  /-- `datetime.utcnow()` as seconds since the epoch -/
  now : Int
  /-- `datetime.strptime(s, "%Y-%m-%d")` as seconds at midnight, `none` on `ValueError` -/
  strptimeYmd : String → Option Int

/-- `gcs.list_gcs_files`: list the objects in a GCS date directory. -/
def list_gcs_files (env : Env) (cfg : Config) (feed date_str : String) : List String :=
  env.gsutilLs (gcs_gs_path cfg feed (some date_str))

/-- `gcs.list_gcs_dates`: list entries under the feed prefix, keep the
date-shaped final components, sort descending, truncate. -/
def list_gcs_dates (env : Env) (cfg : Config) (feed : String) (max_dates : Nat := 30) :
    List String :=
  let entries := env.gsutilLs (gcs_gs_path cfg feed none)
  let dates := entries.filterMap (fun e =>
    let parts := pySplit (pyRstrip e ['/']) '/' 
    let candidate := parts.getLastD ""
    if candidate.length = 10 ∧ candidate.data.getD 4 ' ' = '-' ∧ candidate.data.getD 7 ' ' = '-' then
      some candidate
    else none)
  (dates.mergeSort (fun a b => b ≤ a)).take max_dates

/-! ## tools.py: the query dispatcher -/

/-- `str.format(path=...)` on a template containing the single `{path}`
placeholder. -/
def formatPath (template pathExpr : String) : String :=
  template.replace "{path}" pathExpr

/-- `conn.execute(sql)` with no exception handling: any raised exception
propagates. -/
def conn_execute (env : Env) (sql : String) : Except DuckExn (List Row) :=
  match env.exec sql with
  | .ok rows => .ok rows
  | .raise e => .error e

/-- `tools._try_query`: execute a query, `none` on `duckdb.IOException` or
`duckdb.CatalogException`; any other exception class propagates. -/
def _try_query (env : Env) (sql : String) : Except DuckExn (Option (List Row)) :=
  match env.exec sql with
  | .ok rows => .ok (some rows)
  | .raise (.ioException _) => .ok none
  | .raise (.catalogException _) => .ok none
  | .raise e => .error e

/-- The local cache filename `os.path.join(tempfile.gettempdir(),
f"ssmd_{feed}_{date_str}_{fname}")`. -/
def localCacheName (tmpdir feed date_str fname : String) : String :=
  tmpdir ++ "/ssmd_" ++ feed ++ "_" ++ date_str ++ "_" ++ fname

/-- The local cache name the glob fallback derives from a listed object. -/
def globLocalName (env : Env) (feed date_str gf : String) : String :=
  localCacheName env.tmpdir feed date_str (lastComponent gf)

/-- The remote objects the glob fallback keeps: ending in `.parquet` and
containing `/<file_type>_`. -/
def matchingFiles (env : Env) (cfg : Config) (feed date_str file_type : String) :
    List String :=
  (list_gcs_files env cfg feed date_str).filter
    (fun f => f.endsWith ".parquet" && strContains f ("/" ++ file_type ++ "_"))

/-- State threaded through the glob fallback's download loop. -/
structure GlobSt where
  files : List String
  local_paths : List String
  effs : List Eff
deriving Repr

/-- One iteration of the glob download loop: derive the local cache name;
download only when no same-named file exists; collect the file when it exists
afterwards. -/
def globStep (env : Env) (feed date_str : String) (st : GlobSt) (gf : String) : GlobSt :=
  let l := globLocalName env feed date_str gf
  let afterDl : List String × List Eff :=
    if l ∈ st.files then (st.files, st.effs)
    else
      ((if env.downloadOk gf l then st.files ++ [l] else st.files),
       st.effs ++ [.download gf l])
  let files1 := afterDl.1
  let lp1 := if l ∈ files1 then st.local_paths ++ [l] else st.local_paths
  { files := files1, local_paths := lp1, effs := afterDl.2 }

/-- The glob fallback's `for gf in matching:` loop. -/
def globLoop (env : Env) (feed date_str : String) (st : GlobSt) (matching : List String) :
    GlobSt :=
  matching.foldl (globStep env feed date_str) st

/-- The local paths for which a download was attempted, in order, read off an
I/O trace. -/
def downloadTargets (effs : List Eff) : List String :=
  effs.filterMap (fun e =>
    match e with
    | .download _ l => some l
    | _ => none)

/-- Result of `_query_with_fallback`: the rows or the propagated exception,
the final filesystem, and the I/O trace. -/
structure QwfOut where
  result : Except DuckExn (List Row)
  files : List String
  effs : List Eff
deriving Repr

/-- The remote SQL executed first by `_query_with_fallback`. -/
def remoteSql (cfg : Config) (feed date_str file_type template : String)
    (hour : Option String) : String :=
  formatPath template (sq ++ gcs_parquet_path cfg feed date_str file_type hour ++ sq)

/-- The local cache filename used by the hour-given fallback branch. -/
def hourLocalName (env : Env) (feed date_str file_type h : String) : String :=
  localCacheName env.tmpdir feed date_str (file_type ++ "_" ++ h ++ ".parquet")

/-- The local SQL executed by the hour-given fallback branch. -/
def hourLocalSql (env : Env) (feed date_str file_type template h : String) : String :=
  formatPath template (sq ++ hourLocalName env feed date_str file_type h ++ sq)

/-- The glob branch of the fallback (`hour is None`): list the partition,
filter, download what is absent, and re-execute against the list of local
paths; an empty match list or an empty download yield an empty row list. -/
def fallbackGlob (env : Env) (cfg : Config) (feed date_str file_type template : String)
    (effs0 : List Eff) : QwfOut :=
  let lsPath := gcs_gs_path cfg feed (some date_str)
  let matching := matchingFiles env cfg feed date_str file_type
  let effs1 := effs0 ++ [.gsutilLs lsPath]
  if matching.isEmpty then
    { result := .ok [], files := env.files, effs := effs1 }
  else
    let st := globLoop env feed date_str ⟨env.files, [], []⟩ matching
    if st.local_paths.isEmpty then
      { result := .ok [], files := st.files, effs := effs1 ++ st.effs }
    else
      let pathExpr :=
        "[" ++ String.intercalate ", " (st.local_paths.map (fun p => sq ++ p ++ sq)) ++ "]"
      let sql := formatPath template pathExpr
      { result := conn_execute env sql
        files := st.files
        effs := effs1 ++ st.effs ++ [.execSql sql] }

/-- The hour-given branch of the fallback: one deterministic local cache name,
downloaded only when absent; if still absent afterwards, an empty row list. -/
def fallbackHour (env : Env) (cfg : Config) (feed date_str file_type template h : String)
    (effs0 : List Eff) : QwfOut :=
  let gcsPath := gcs_parquet_path cfg feed date_str file_type (some h)
  let l := hourLocalName env feed date_str file_type h
  let gsPathGs := gcsPath.replace "s3://" "gs://"
  let afterDl : List String × List Eff :=
    if l ∈ env.files then (env.files, effs0)
    else
      ((if env.downloadOk gsPathGs l then env.files ++ [l] else env.files),
       effs0 ++ [.download gsPathGs l])
  let files1 := afterDl.1
  if l ∈ files1 then
    let sql := hourLocalSql env feed date_str file_type template h
    { result := conn_execute env sql
      files := files1
      effs := afterDl.2 ++ [.execSql sql] }
  else
    { result := .ok [], files := files1, effs := afterDl.2 }

/-- `tools._query_with_fallback`: try direct GCS access; on
`IOException`/`CatalogException` fall back to gsutil downloads; the second
execution is uncaught. -/
def _query_with_fallback (env : Env) (cfg : Config)
    (feed date_str file_type template : String) (hour : Option String := none) : QwfOut :=
  let sql := remoteSql cfg feed date_str file_type template hour
  match _try_query env sql with
  | .error e => { result := .error e, files := env.files, effs := [.execSql sql] }
  | .ok (some rows) => { result := .ok rows, files := env.files, effs := [.execSql sql] }
  | .ok none =>
    match hour with
    | none => fallbackGlob env cfg feed date_str file_type template [.execSql sql]
    | some h => fallbackHour env cfg feed date_str file_type template h [.execSql sql]

/-! ## tools.py: query_trades and query_prices -/

/-- Python `date_str or today_str()`: `None` and the empty string are falsy. -/
def dateOrToday (env : Env) (date_str : Option String) : String :=
  match date_str with
  | some d => if d = "" then env.today else d
  | none => env.today

/-- Python f-string interpolation of a value that may be `None`. -/
def pyOptStr (s : Option String) : String :=
  match s with
  | some v => v
  | none => "None"

/-- The tool functions' JSON envelopes, before `json.dumps`. -/
inductive ToolOut where
  | jsonError (msg : String)
  | tradesEnvelope (feed date : String) (count : Nat) (trades : List Row)
  | pricesEnvelope (feed date : String) (hour : Option String) (count : Nat) (prices : List Row)
  | rawEnvelope (sql : String) (count : Nat) (rows : List Row)
  | rawError (err sql : String)
deriving Repr

/-- The polymarket trade aggregation template of `query_trades`. -/
def polymarketTradeSql (ticker_col price_col : String) (limit : Nat) : String :=
  "\n            SELECT\n                " ++ ticker_col ++ " as ticker,\n                COUNT(*) as trade_count,\n                MIN(" ++ price_col ++ ") as min_price,\n                MAX(" ++ price_col ++ ") as max_price,\n                AVG(" ++ price_col ++ ") as avg_price\n            FROM read_parquet({path})\n            GROUP BY " ++ ticker_col ++ "\n            ORDER BY trade_count DESC\n            LIMIT " ++ toString limit ++ "\n        "

/-- The kalshi trade aggregation template of `query_trades` (prices are in
cents, so min/max/avg are divided by 100.0). -/
def kalshiTradeSql (ticker_col price_col : String) (qty_col : Option String) (limit : Nat) : String :=
  "\n            SELECT\n                " ++ ticker_col ++ " as ticker,\n                COUNT(*) as trade_count,\n                SUM(" ++ pyOptStr qty_col ++ ") as total_volume,\n                MIN(" ++ price_col ++ ") / 100.0 as min_price,\n                MAX(" ++ price_col ++ ") / 100.0 as max_price,\n                AVG(" ++ price_col ++ ") / 100.0 as avg_price\n            FROM read_parquet({path})\n            GROUP BY " ++ ticker_col ++ "\n            ORDER BY trade_count DESC\n            LIMIT " ++ toString limit ++ "\n        "

/-- The kraken trade aggregation template of `query_trades`. -/
def krakenTradeSql (ticker_col price_col : String) (qty_col : Option String) (limit : Nat) : String :=
  "\n            SELECT\n                " ++ ticker_col ++ " as ticker,\n                COUNT(*) as trade_count,\n                SUM(" ++ pyOptStr qty_col ++ ") as total_volume,\n                MIN(" ++ price_col ++ ") as min_price,\n                MAX(" ++ price_col ++ ") as max_price,\n                AVG(" ++ price_col ++ ") as avg_price\n            FROM read_parquet({path})\n            GROUP BY " ++ ticker_col ++ "\n            ORDER BY trade_count DESC\n            LIMIT " ++ toString limit ++ "\n        "

/-- The `"Unknown feed"` structured error message of the feed-aware query
functions. -/
def unknownFeedMsg (cfg : Config) (feed : String) : String :=
  "Unknown feed: " ++ feed ++ ". Valid: " ++ pyReprStrList (cfg.feed_paths.map Prod.fst)

/-- `tools.query_trades`: reject unknown feeds before any I/O, otherwise pick
the per-feed template and file type and dispatch with fallback.  The result is
the envelope (or a propagated exception) together with the I/O trace. -/
def query_trades (env : Env) (cfg : Config) (feed : String)
    (date_str : Option String := none) (limit : Nat := 20) :
    Except DuckExn ToolOut × List Eff :=
  if (cfg.feed_paths.lookup feed).isNone then
    (.ok (.jsonError (unknownFeedMsg cfg feed)), [])
  else
    let d := dateOrToday env date_str
    let ticker_col := (cfg.trade_ticker_col.lookup feed).getD ""
    let price_col := (cfg.trade_price_col.lookup feed).getD ""
    let qty_col := (cfg.trade_qty_col.lookup feed).getD none
    let ft : String × String :=
      if feed = "polymarket" then
        ("last_trade_price", polymarketTradeSql ticker_col price_col limit)
      else if feed = "kalshi" then
        ("trade", kalshiTradeSql ticker_col price_col qty_col limit)
      else
        ("trade", krakenTradeSql ticker_col price_col qty_col limit)
    let out := _query_with_fallback env cfg feed d ft.1 ft.2 none
    (match out.result with
     | .error e => .error e
     | .ok rows => .ok (.tradesEnvelope feed d rows.length rows),
     .connect :: out.effs)

/-- The kalshi latest-snapshot template of `query_prices`. -/
def kalshiPriceSql : String :=
  "\n            SELECT\n                market_ticker as ticker,\n                yes_bid / 100.0 as yes_bid,\n                yes_ask / 100.0 as yes_ask,\n                no_bid / 100.0 as no_bid,\n                no_ask / 100.0 as no_ask,\n                last_price / 100.0 as last_price,\n                volume,\n                open_interest,\n                ts\n            FROM read_parquet({path})\n            QUALIFY ROW_NUMBER() OVER (PARTITION BY market_ticker ORDER BY ts DESC) = 1\n            ORDER BY volume DESC\n        "

/-- The kraken-futures latest-snapshot template of `query_prices`. -/
def krakenPriceSql : String :=
  "\n            SELECT\n                product_id as ticker,\n                bid,\n                ask,\n                last,\n                volume,\n                funding_rate,\n                mark_price\n            FROM read_parquet({path})\n            QUALIFY ROW_NUMBER() OVER (PARTITION BY product_id ORDER BY _received_at DESC) = 1\n            ORDER BY volume DESC\n        "

/-- The polymarket latest-snapshot template of `query_prices`. -/
def polymarketPriceSql : String :=
  "\n            SELECT\n                market,\n                asset_id,\n                best_bid,\n                best_ask,\n                spread\n            FROM read_parquet({path})\n            QUALIFY ROW_NUMBER() OVER (PARTITION BY asset_id ORDER BY _received_at DESC) = 1\n            ORDER BY spread ASC\n        "

/-- `tools.query_prices`: reject unknown feeds before any I/O, otherwise
dispatch the per-feed snapshot template with fallback. -/
def query_prices (env : Env) (cfg : Config) (feed : String)
    (date_str : Option String := none) (hour : Option String := none) :
    Except DuckExn ToolOut × List Eff :=
  if (cfg.feed_paths.lookup feed).isNone then
    (.ok (.jsonError (unknownFeedMsg cfg feed)), [])
  else
    let d := dateOrToday env date_str
    let file_type := (cfg.price_type.lookup feed).getD ""
    let template :=
      if feed = "kalshi" then kalshiPriceSql
      else if feed = "kraken-futures" then krakenPriceSql
      else polymarketPriceSql
    let out := _query_with_fallback env cfg feed d file_type template hour
    (match out.result with
     | .error e => .error e
     | .ok rows => .ok (.pricesEnvelope feed d hour rows.length rows),
     .connect :: out.effs)

/-! ## Denotation of the trade aggregation templates

The SQL templates above are executed by DuckDB, an external engine.  The
aggregate expressions they contain are given their standard SQL meaning here
(`MIN`, `MAX`, `AVG` over the rows of one `GROUP BY` group, which is always
nonempty), so that the per-feed unit normalisation can be stated: the kalshi
template divides each price aggregate by `100.0`, the kraken and polymarket
templates pass the price column through unchanged. -/

/-- SQL `MIN` over a (nonempty) group's price values. -/
def sqlMin (ps : List Rat) : Rat :=
  match ps with
  | [] => 0
  | p :: r => r.foldl min p

/-- SQL `MAX` over a (nonempty) group's price values. -/
def sqlMax (ps : List Rat) : Rat :=
  match ps with
  | [] => 0
  | p :: r => r.foldl max p

/-- SQL `AVG` over a (nonempty) group's price values. -/
def sqlAvg (ps : List Rat) : Rat :=
  ps.sum / (ps.length : Rat)

/-- Denotation of the kalshi template's price aggregates:
`(MIN(price) / 100.0, MAX(price) / 100.0, AVG(price) / 100.0)`. -/
def kalshiTradePriceAgg (prices : List Rat) : Rat × Rat × Rat :=
  (sqlMin prices / 100, sqlMax prices / 100, sqlAvg prices / 100)

/-- Denotation of the kraken-futures template's price aggregates:
`(MIN(price), MAX(price), AVG(price))`, no unit conversion. -/
def krakenTradePriceAgg (prices : List Rat) : Rat × Rat × Rat :=
  (sqlMin prices, sqlMax prices, sqlAvg prices)

/-- Denotation of the polymarket template's price aggregates:
`(MIN(price), MAX(price), AVG(price))`, no unit conversion. -/
def polymarketTradePriceAgg (prices : List Rat) : Rat × Rat × Rat :=
  (sqlMin prices, sqlMax prices, sqlAvg prices)

/-! ## tools.py: query_raw and the `$FEED_PATH` macro expansion

`re.sub(r"\$FEED_PATH\(\s*([a-z-]+)\s*(?:,\s*([0-9-]+)\s*)?\)", ...)` is
embedded as a scanner over the character list: at each position it tries to
match the pattern; on a match it emits the replacement and continues after the
match (non-overlapping, left to right), otherwise it emits the character. -/

/-- The character class `[a-z-]`. -/
def isFeedChar (c : Char) : Bool :=
  c.isLower || c = '-'

/-- The character class `[0-9-]`. -/
def isDateChar (c : Char) : Bool :=
  c.isDigit || c = '-'

/-- The literal head of the macro pattern. -/
def feedPathHead : List Char := "$FEED_PATH(".data

/-- Match the `$FEED_PATH` pattern at the head of `cs`; on success return the
two capture groups and the remainder after the closing parenthesis.  The
classes `[a-z-]`, `[0-9-]` and `\s` are pairwise disjoint and disjoint from
`,` and `)`, so greedy scanning coincides with the regex's backtracking
semantics. -/
def matchAfterDate (feedCs dateCs : List Char) (r : List Char) :
    Option (String × Option String × List Char) :=
  if dateCs.isEmpty then none
  else
    match r with
    | ')' :: rest => some (⟨feedCs⟩, some ⟨dateCs⟩, rest)
    | _ => none

def matchAfterFeed (feedCs : List Char) (r : List Char) :
    Option (String × Option String × List Char) :=
  if feedCs.isEmpty then none
  else
    match r with
    | ')' :: rest => some (⟨feedCs⟩, none, rest)
    | ',' :: r3 =>
      matchAfterDate feedCs ((r3.dropWhile pyIsSpace).takeWhile isDateChar)
        (((r3.dropWhile pyIsSpace).dropWhile isDateChar).dropWhile pyIsSpace)
    | _ => none

def matchFeedPathAt (cs : List Char) : Option (String × Option String × List Char) :=
  if feedPathHead.isPrefixOf cs then
    matchAfterFeed (((cs.drop feedPathHead.length).dropWhile pyIsSpace).takeWhile isFeedChar)
      ((((cs.drop feedPathHead.length).dropWhile pyIsSpace).dropWhile isFeedChar).dropWhile
        pyIsSpace)
  else none

theorem length_dropWhile_le' (p : Char → Bool) (l : List Char) :
    (l.dropWhile p).length ≤ l.length := by
  induction l with
  | nil => simp [List.dropWhile]
  | cons c cs ih =>
    by_cases h : p c
    · simp only [List.dropWhile, h]
      exact Nat.le_succ_of_le ih
    · simp [List.dropWhile, h]

theorem matchAfterDate_shrinks (fc dc r : List Char) (f : String) (d : Option String)
    (rest : List Char) (h : matchAfterDate fc dc r = some (f, d, rest)) :
    rest.length < r.length := by
  unfold matchAfterDate at h
  split at h
  · cases h
  split at h
  · simp only [Option.some.injEq, Prod.mk.injEq] at h
    obtain ⟨-, -, hr⟩ := h
    subst hr
    simp
  · cases h

theorem matchAfterFeed_shrinks (fc r : List Char) (f : String) (d : Option String)
    (rest : List Char) (h : matchAfterFeed fc r = some (f, d, rest)) :
    rest.length < r.length := by
  unfold matchAfterFeed at h
  split at h
  · cases h
  split at h
  · simp only [Option.some.injEq, Prod.mk.injEq] at h
    obtain ⟨-, -, hr⟩ := h
    subst hr
    simp
  · next r3 =>
    have hd := matchAfterDate_shrinks _ _ _ _ _ _ h
    have h2 : (((r3.dropWhile pyIsSpace).dropWhile isDateChar).dropWhile pyIsSpace).length ≤
        r3.length :=
      le_trans (length_dropWhile_le' _ _)
        (le_trans (length_dropWhile_le' _ _) (length_dropWhile_le' _ _))
    simp only [List.length_cons]
    omega
  · cases h

theorem matchFeedPathAt_shrinks (cs : List Char) (f : String) (d : Option String)
    (rest : List Char) (h : matchFeedPathAt cs = some (f, d, rest)) :
    rest.length < cs.length := by
  unfold matchFeedPathAt at h
  split at h
  · next hp =>
    have hlen : feedPathHead.length ≤ cs.length :=
      (List.isPrefixOf_iff_prefix.mp hp).length_le
    have hhead : feedPathHead.length = 11 := by decide
    have hr := matchAfterFeed_shrinks _ _ _ _ _ h
    have h2 : ((((cs.drop feedPathHead.length).dropWhile pyIsSpace).dropWhile
        isFeedChar).dropWhile pyIsSpace).length ≤ (cs.drop feedPathHead.length).length :=
      le_trans (length_dropWhile_le' _ _)
        (le_trans (length_dropWhile_le' _ _) (length_dropWhile_le' _ _))
    simp only [List.length_drop] at h2
    omega
  · cases h

/-- The re.sub scan: at each position try the pattern; on a match, substitute
`repl` applied to the capture groups and continue after the match. -/
def reSubFeedPath (repl : String → Option String → String) (cs : List Char) : List Char :=
  match cs with
  | [] => []
  | c :: cs' =>
    match h : matchFeedPathAt (c :: cs') with
    | some (f, d, rest) => (repl f d).data ++ reSubFeedPath repl rest
    | none => c :: reSubFeedPath repl cs'
termination_by cs.length
decreasing_by
  · exact matchFeedPathAt_shrinks _ _ _ _ h
  · simp

/-- `tools.query_raw.expand_feed_path`: the replacement for one macro
occurrence — the feed's partition path, with the feed string itself as prefix
when the feed is unknown (`cfg.feed_paths.get(f, f)`) and the call's default
date when the macro gives none. -/
def expand_feed_path (cfg : Config) (date_str : String) (f : String) (d : Option String) :
    String :=
  "s3://" ++ cfg.gcs_bucket ++ "/" ++ (cfg.feed_paths.lookup f).getD f ++ "/" ++
    d.getD date_str ++ "/"

/-- The macro-expanded SQL of `query_raw`. -/
def expandFeedPathMacros (cfg : Config) (date_str sql : String) : String :=
  ⟨reSubFeedPath (expand_feed_path cfg date_str) sql.data⟩

/-- Python's `s.upper()` (the SQL text is ASCII): uppercase each character. -/
def pyUpper (s : String) : String :=
  ⟨s.data.map Char.toUpper⟩

/-- `"LIMIT" in expanded.upper()`. -/
def hasLimitKeyword (s : String) : Bool :=
  strContains (pyUpper s) "LIMIT"

/-- The row-cap enforcement of `query_raw`: when the expanded SQL does not
contain `LIMIT` (case-insensitively), strip trailing `;`, spaces and newlines
and append ` LIMIT 1000`. -/
def enforceLimit (expanded : String) : String :=
  if hasLimitKeyword expanded then expanded
  else pyRstrip expanded [';', ' ', '\n'] ++ " LIMIT 1000"

/-- `tools.query_raw`: expand `$FEED_PATH` macros, enforce the row cap, and
execute; any execution exception is caught and returned as a structured error
together with the expanded SQL.  The `feed` argument is accepted and unused,
as in the source. -/
def query_raw (env : Env) (cfg : Config) (sql : String)
    (feed : Option String := none) (date_str : Option String := none) :
    ToolOut × List Eff :=
  let d := dateOrToday env date_str
  let expanded := enforceLimit (expandFeedPathMacros cfg d sql)
  match env.exec expanded with
  | .ok rows => (.rawEnvelope expanded rows.length rows, [.connect, .execSql expanded])
  | .raise e => (.rawError e.message expanded, [.connect, .execSql expanded])

/-! ## tools.py: check_freshness

`datetime.strptime(newest_date, "%Y-%m-%d")` is the external `datetime`
library, modelled by the oracle `env.strptimeYmd` returning seconds at
midnight or `none` on `ValueError`; `date_obj.replace(hour=h)` on that
midnight value adds `3600 * h` seconds when `h < 24` and raises `ValueError`
otherwise.  The JSON report rounds the age to one decimal; the entry here
keeps the exact rational (the rounding is presentation only and no claim
touches it). -/

/-- The per-feed freshness report entry.  The `no_data` entry carries only
feed, status, newest_date and stale, so the remaining fields are optional. -/
structure FreshEntry where
  feed : String
  status : String
  newest_date : Option String
  newest_hour : Option String := none
  age_hours : Option Rat := none
  stale : Bool
  file_count : Option Nat := none
  parquet_count : Option Nat := none
deriving Repr

/-- `fname.replace(".parquet", "").replace(".jsonl.gz", "").replace(".jsonl", "")`. -/
def stripDataSuffixes (fname : String) : String :=
  ((fname.replace ".parquet" "").replace ".jsonl.gz" "").replace ".jsonl" ""

/-- One iteration of the newest-hour extraction loop: split the
suffix-stripped basename on `_`; when there are at least two parts and the
last is a 4-digit numeral, keep the maximum such token. -/
def extractHourStep (acc : Option String) (fp : String) : Option String :=
  let parts := pySplit (stripDataSuffixes (lastComponent fp)) '_' 
  if parts.length ≥ 2 then
    let hour_part := parts.getLastD ""
    if hour_part.data.all Char.isDigit ∧ hour_part.length = 4 then
      match acc with
      | none => some hour_part
      | some nh => if nh < hour_part then some hour_part else some nh
    else acc
  else acc

/-- The age computation of `check_freshness`: the `try`/`except ValueError`
block, yielding hours as a rational or `none`. -/
def freshnessAge (env : Env) (newest_date : String) (newest_hour : Option String) :
    Option Rat :=
  match env.strptimeYmd newest_date with
  | none => none
  | some d0 =>
    match newest_hour with
    | none => some (((env.now - d0 : Int) : Rat) / 3600)
    | some nh =>
      let h := ((nh.take 2).toNat?).getD 0
      if h < 24 then some (((env.now - (d0 + 3600 * (h : Int)) : Int) : Rat) / 3600)
      else none

/-- The per-feed body of `check_freshness`. -/
def freshness_entry (env : Env) (cfg : Config) (f : String) : FreshEntry :=
  match list_gcs_dates env cfg f 3 with
  | [] => { feed := f, status := "no_data", newest_date := none, stale := true }
  | newest_date :: _ =>
    let files := list_gcs_files env cfg f newest_date
    let parquet_files := files.filter (fun fp => fp.endsWith ".parquet")
    let jsonl_files := files.filter (fun fp => fp.endsWith ".jsonl" || fp.endsWith ".jsonl.gz")
    let all_data_files := parquet_files ++ jsonl_files
    let newest_hour := all_data_files.foldl extractHourStep none
    let age_hours := freshnessAge env newest_date newest_hour
    let is_stale :=
      match age_hours with
      | none => false
      | some a => decide (a > 7)
    { feed := f
      status := if is_stale then "stale" else "fresh"
      newest_date := some newest_date
      newest_hour := newest_hour
      age_hours := age_hours
      stale := is_stale
      file_count := some all_data_files.length
      parquet_count := some parquet_files.length }

/-- `tools.check_freshness`: one entry per checked feed. -/
def check_freshness (env : Env) (cfg : Config) (feed : Option String := none) :
    List FreshEntry :=
  let feeds :=
    match feed with
    | some f => [f]
    | none => cfg.feed_paths.map Prod.fst
  feeds.map (freshness_entry env cfg)

/-! ## Theorems -/

theorem globCount_append (a b : String) :
    globCount (a ++ b) = globCount a + globCount b := by
  simp [globCount, String.data_append, List.count_append]

/-- C5: for every feed, date, file type and hour whose components are free of
glob characters, the path builder with the hour given returns
`s3://<bucket>/<prefix>/<date>/<fileType>_<hour>.parquet` — the literal hour
token, no glob character anywhere — and with the hour omitted returns
`s3://<bucket>/<prefix>/<date>/<fileType>_*.parquet`, whose single glob
character is the one-segment wildcard standing at the hour position. -/
theorem C5_path_builder_shape (cfg : Config) (feed date_str file_type h : String)
    (hb : globCount cfg.gcs_bucket = 0)
    (hp : globCount ((cfg.feed_paths.lookup feed).getD feed) = 0)
    (hd : globCount date_str = 0) (hf : globCount file_type = 0)
    (hh : globCount h = 0) :
    (gcs_parquet_path cfg feed date_str file_type (some h) =
        "s3://" ++ cfg.gcs_bucket ++ "/" ++ (cfg.feed_paths.lookup feed).getD feed ++ "/" ++
          date_str ++ "/" ++ file_type ++ "_" ++ h ++ ".parquet" ∧
      globCount (gcs_parquet_path cfg feed date_str file_type (some h)) = 0) ∧
    (gcs_parquet_path cfg feed date_str file_type none =
        "s3://" ++ cfg.gcs_bucket ++ "/" ++ (cfg.feed_paths.lookup feed).getD feed ++ "/" ++
          date_str ++ "/" ++ file_type ++ "_*.parquet" ∧
      globCount (gcs_parquet_path cfg feed date_str file_type none) = 1) := by
  refine ⟨⟨rfl, ?_⟩, rfl, ?_⟩ <;>
    simp only [gcs_parquet_path, globCount_append, hb, hp, hd, hf, hh] <;> decide

/-- Witness for C5 at the default configuration: the kalshi path for
2025-01-15, hour 1400, is glob-free, and the hour-omitted path holds exactly
one glob character. -/
theorem C5_path_builder_shape_witness :
    globCount (gcs_parquet_path {} "kalshi" "2025-01-15" "trade" (some "1400")) = 0 ∧
    globCount (gcs_parquet_path {} "kalshi" "2025-01-15" "trade" none) = 1 :=
  ⟨(C5_path_builder_shape {} "kalshi" "2025-01-15" "trade" "1400" (by decide) (by decide)
      (by decide) (by decide) (by decide)).1.2,
   (C5_path_builder_shape {} "kalshi" "2025-01-15" "trade" "1400" (by decide) (by decide)
      (by decide) (by decide) (by decide)).2.2⟩

/-- C6: a feed string with no entry in the feed table is accepted permissively
by the path builder, which uses the feed string itself as the remote prefix;
the feed-aware query functions `query_trades` and `query_prices` instead
return the structured `"Unknown feed"` error naming the valid feed set, with
an empty I/O trace (no connection, listing, download or query). -/
theorem C6_unknown_feed_permissive_builder_strict_queries (env : Env) (cfg : Config)
    (feed date_str file_type h : String) (dso hour : Option String) (limit : Nat)
    (hunk : cfg.feed_paths.lookup feed = none) :
    (gcs_parquet_path cfg feed date_str file_type (some h) =
      "s3://" ++ cfg.gcs_bucket ++ "/" ++ feed ++ "/" ++ date_str ++ "/" ++
        file_type ++ "_" ++ h ++ ".parquet") ∧
    (gcs_parquet_path cfg feed date_str file_type none =
      "s3://" ++ cfg.gcs_bucket ++ "/" ++ feed ++ "/" ++ date_str ++ "/" ++
        file_type ++ "_*.parquet") ∧
    query_trades env cfg feed dso limit =
      (.ok (.jsonError ("Unknown feed: " ++ feed ++ ". Valid: " ++
        pyReprStrList (cfg.feed_paths.map Prod.fst))), []) ∧
    query_prices env cfg feed dso hour =
      (.ok (.jsonError ("Unknown feed: " ++ feed ++ ". Valid: " ++
        pyReprStrList (cfg.feed_paths.map Prod.fst))), []) := by
  refine ⟨?_, ?_, ?_, ?_⟩
  · simp [gcs_parquet_path, hunk]
  · simp [gcs_parquet_path, hunk]
  · simp [query_trades, hunk, unknownFeedMsg]
  · simp [query_prices, hunk, unknownFeedMsg]

/-- Witness for C6 at the default configuration and the feed string
`"deribit"`: the path builder uses the unknown feed as prefix and
`query_trades` returns the structured error naming the valid feeds with no
I/O performed. -/
theorem C6_unknown_feed_witness :
    gcs_parquet_path {} "deribit" "2025-01-15" "trade" none =
      "s3://" ++ "ssmd-data" ++ "/" ++ "deribit" ++ "/" ++ "2025-01-15" ++ "/" ++
        "trade" ++ "_*.parquet" ∧
    query_trades
        { exec := fun _ => .ok [], gsutilLs := fun _ => [], files := [],
          downloadOk := fun _ _ => false, tmpdir := "/tmp", today := "2025-01-15",
          now := 0, strptimeYmd := fun _ => none }
        {} "deribit" none 20 =
      (.ok (.jsonError ("Unknown feed: " ++ "deribit" ++ ". Valid: " ++
        pyReprStrList ["kalshi", "kraken-futures", "polymarket"])), []) := by
  have h := C6_unknown_feed_permissive_builder_strict_queries
    { exec := fun _ => .ok [], gsutilLs := fun _ => [], files := [],
      downloadOk := fun _ _ => false, tmpdir := "/tmp", today := "2025-01-15",
      now := 0, strptimeYmd := fun _ => none }
    {} "deribit" "2025-01-15" "trade" "1400" none none 20 (by decide)
  exact ⟨h.2.1, h.2.2.1⟩

/-- C7: in the trade-aggregation templates, the minor-unit feed (kalshi) has
min, max and average price each divided by 100, so raw integer prices
100, 150, 200 report 1.00, 2.00, 1.50; the kraken-futures and polymarket
templates report the price aggregates unchanged. -/
theorem C7_minor_unit_price_normalisation :
    kalshiTradePriceAgg [100, 150, 200] = (1, 2, 3 / 2) ∧
    krakenTradePriceAgg [100, 150, 200] = (100, 200, 150) ∧
    polymarketTradePriceAgg [100, 150, 200] = (100, 200, 150) := by
  norm_num [kalshiTradePriceAgg, krakenTradePriceAgg, polymarketTradePriceAgg,
    sqlMin, sqlMax, sqlAvg]

theorem strContainsL_mono (hay' hay pat : List Char) (hpre : hay' <+: hay)
    (h : strContainsL hay' pat = true) : strContainsL hay pat = true := by
  unfold strContainsL at h ⊢
  rw [List.any_eq_true] at h ⊢
  obtain ⟨i, hi, hp⟩ := h
  obtain ⟨t, ht⟩ := hpre
  rw [List.mem_range] at hi
  have hile : i ≤ hay'.length := Nat.lt_succ_iff.mp hi
  refine ⟨i, ?_, ?_⟩
  · rw [List.mem_range, ← ht, List.length_append]
    omega
  · rw [List.isPrefixOf_iff_prefix] at hp ⊢
    rw [← ht, List.drop_append_eq_append_drop, Nat.sub_eq_zero_of_le hile, List.drop_zero]
    exact hp.trans (List.prefix_append _ _)

theorem pyRstrip_data_isPre (s : String) (chars : List Char) :
    (pyRstrip s chars).data <+: s.data := by
  have h : (s.data.reverse.dropWhile (fun c => chars.contains c)) <:+ s.data.reverse :=
    List.dropWhile_suffix _
  have h2 := List.reverse_prefix.mpr h
  rwa [List.reverse_reverse] at h2

theorem pyUpper_data (s : String) : (pyUpper s).data = s.data.map Char.toUpper := rfl

theorem hasLimitKeyword_pyRstrip (s : String) (chars : List Char)
    (h : hasLimitKeyword s = false) : hasLimitKeyword (pyRstrip s chars) = false := by
  unfold hasLimitKeyword strContains at h ⊢
  by_contra hne
  rw [Bool.not_eq_false] at hne
  have hpre : (pyUpper (pyRstrip s chars)).data <+: (pyUpper s).data := by
    rw [pyUpper_data, pyUpper_data]
    exact (pyRstrip_data_isPre s chars).map _
  have hmono := strContainsL_mono _ _ _ hpre hne
  rw [hmono] at h
  cases h

/-- C8: for every macro-expanded freeform query, when the SQL contains no
explicit row-limit clause (formalised, as in the source's test, as the
case-insensitive keyword `LIMIT` not occurring in the text), exactly one
trailing ` LIMIT 1000` clause is appended — the result is the
trailing-`;`/space/newline-stripped SQL followed by ` LIMIT 1000`, and the
part before the appended clause still contains no limit keyword, so the
appended clause is the single one — while a query already containing an
explicit limit clause is executed unchanged. -/
theorem C8_raw_limit_cap (expanded : String) :
    (hasLimitKeyword expanded = false →
      enforceLimit expanded = pyRstrip expanded [';', ' ', '\n'] ++ " LIMIT 1000" ∧
      hasLimitKeyword (pyRstrip expanded [';', ' ', '\n']) = false) ∧
    (hasLimitKeyword expanded = true → enforceLimit expanded = expanded) := by
  constructor
  · intro h
    refine ⟨?_, hasLimitKeyword_pyRstrip expanded _ h⟩
    unfold enforceLimit
    rw [h]
    simp
  · intro h
    unfold enforceLimit
    rw [h]
    simp

/-- Witness for C8: a query with no limit clause gains exactly the trailing
cap; a query with a limit clause is unchanged. -/
theorem C8_raw_limit_cap_witness :
    enforceLimit "SELECT * FROM t ; \n" =
      pyRstrip "SELECT * FROM t ; \n" [';', ' ', '\n'] ++ " LIMIT 1000" ∧
    enforceLimit "SELECT * FROM t LIMIT 5" = "SELECT * FROM t LIMIT 5" :=
  ⟨((C8_raw_limit_cap "SELECT * FROM t ; \n").1 (by decide)).1,
   (C8_raw_limit_cap "SELECT * FROM t LIMIT 5").2 (by decide)⟩

theorem gcloudFetch_invoked (now : Int) (run : HelperRun) (st : TokenState) :
    (gcloudFetch now run st).invoked = true := by
  cases run with
  | completed rc out =>
    simp only [gcloudFetch]
    split <;> rfl
  | raised => rfl

/-- C4: the credential resolver returns a cached truthy bearer token younger
than 30 minutes (1800 seconds) without invoking the gcloud helper and without
touching the cache; when the cached token is 30 minutes old or older, or no
token is cached, the helper is invoked, and on a successful run (return code
0, nonempty stripped stdout) the new token and its acquisition timestamp are
cached and returned. -/
theorem C4_token_cache (now t : Int) (tok s : String) (run : HelperRun) (st : TokenState) :
    (st.gcs_token = some tok → tok ≠ "" → st.gcs_token_time = some t → now - t < 1800 →
      _get_gcs_token now run st = ⟨some tok, st, false⟩) ∧
    (st.gcs_token_time = some t → 1800 ≤ now - t →
      (_get_gcs_token now run st).invoked = true) ∧
    (st.gcs_token = none → (_get_gcs_token now run st).invoked = true) ∧
    (st.gcs_token_time = some t → 1800 ≤ now - t → run = .completed 0 s → pyStrip s ≠ "" →
      _get_gcs_token now run st = ⟨some (pyStrip s), ⟨some (pyStrip s), some now⟩, true⟩) := by
  obtain ⟨g, tm⟩ := st
  have hfetch : run = .completed 0 s → pyStrip s ≠ "" →
      gcloudFetch now run ⟨g, tm⟩ = ⟨some (pyStrip s), ⟨some (pyStrip s), some now⟩, true⟩ := by
    intro hrun hs
    rw [hrun]
    simp [gcloudFetch, hs]
  refine ⟨?_, ?_, ?_, ?_⟩
  · intro h1 h2 h3 h4
    simp only at h1 h3
    subst h1
    subst h3
    simp only [_get_gcs_token]
    rw [if_pos ⟨h2, h4⟩]
  · intro h3 h4
    simp only at h3
    subst h3
    cases g with
    | none =>
      simp only [_get_gcs_token]
      exact gcloudFetch_invoked _ _ _
    | some tok' =>
      simp only [_get_gcs_token]
      rw [if_neg (by rintro ⟨-, hlt⟩; omega)]
      exact gcloudFetch_invoked _ _ _
  · intro h1
    simp only at h1
    subst h1
    simp only [_get_gcs_token]
    exact gcloudFetch_invoked _ _ _
  · intro h3 h4 hrun hs
    simp only at h3
    subst h3
    cases g with
    | none =>
      simp only [_get_gcs_token]
      exact hfetch hrun hs
    | some tok' =>
      simp only [_get_gcs_token]
      rw [if_neg (by rintro ⟨-, hlt⟩; omega)]
      exact hfetch hrun hs

/-- Witness for C4: at 100 seconds of age the cached token is reused with no
helper invocation; at exactly 1800 seconds the helper is invoked and its
stripped stdout is cached with the new timestamp. -/
theorem C4_token_cache_witness :
    _get_gcs_token 100 (.completed 0 "newtok\n") ⟨some "cached", some 0⟩ =
      ⟨some "cached", ⟨some "cached", some 0⟩, false⟩ ∧
    _get_gcs_token 1800 (.completed 0 "newtok\n") ⟨some "cached", some 0⟩ =
      ⟨some (pyStrip "newtok\n"), ⟨some (pyStrip "newtok\n"), some 1800⟩, true⟩ :=
  ⟨(C4_token_cache 100 0 "cached" "newtok\n" (.completed 0 "newtok\n")
      ⟨some "cached", some 0⟩).1 rfl (by decide) rfl (by decide),
   (C4_token_cache 1800 0 "cached" "newtok\n" (.completed 0 "newtok\n")
      ⟨some "cached", some 0⟩).2.2.2 rfl (by decide) rfl (by decide)⟩

/-- C9: in the freshness prober, for a feed whose newest date partition's date
string fails to parse, the reported age is unknown (`none`, not an error) and
staleness is not asserted (the stale flag is false, the status reads fresh),
whether or not an hour token was extracted. -/
theorem C9_freshness_unparsable_date (env : Env) (cfg : Config) (f nd : String)
    (rest : List String)
    (hdates : list_gcs_dates env cfg f 3 = nd :: rest)
    (hparse : env.strptimeYmd nd = none) :
    (freshness_entry env cfg f).age_hours = none ∧
    (freshness_entry env cfg f).stale = false ∧
    (freshness_entry env cfg f).status = "fresh" := by
  unfold freshness_entry
  rw [hdates]
  simp [freshnessAge, hparse]

/-- Witness for C9: one partition named 9999-99-99 (date-shaped but
unparsable), so the reported age is unknown and the feed is not flagged
stale. -/
theorem C9_freshness_unparsable_date_witness :
    (freshness_entry
      { exec := fun _ => .ok [], gsutilLs := fun _ => ["gs://b/x/9999-99-99/"], files := [],
        downloadOk := fun _ _ => false, tmpdir := "/tmp", today := "2025-01-15",
        now := 0, strptimeYmd := fun _ => none } {} "kalshi").age_hours = none ∧
    (freshness_entry
      { exec := fun _ => .ok [], gsutilLs := fun _ => ["gs://b/x/9999-99-99/"], files := [],
        downloadOk := fun _ _ => false, tmpdir := "/tmp", today := "2025-01-15",
        now := 0, strptimeYmd := fun _ => none } {} "kalshi").stale = false := by
  have h := C9_freshness_unparsable_date
    { exec := fun _ => .ok [], gsutilLs := fun _ => ["gs://b/x/9999-99-99/"], files := [],
      downloadOk := fun _ _ => false, tmpdir := "/tmp", today := "2025-01-15",
      now := 0, strptimeYmd := fun _ => none } {} "kalshi" "9999-99-99" []
    (by simp +decide [list_gcs_dates, List.filterMap_cons, List.filterMap_nil]) rfl
  exact ⟨h.1, h.2.1⟩

/-- C1: in the query dispatcher's fallback, only `duckdb.IOException` and
`duckdb.CatalogException` raised by the first (remote) execution trigger the
local-download fallback; any other exception class propagates to the caller
uncaught, with no fallback I/O performed; and the second execution against
local path(s) is allowed to raise — any exception it raises (of any class,
I/O errors included) propagates, with no further fallback after it. -/
theorem C1_fallback_trigger_classes (env : Env) (cfg : Config)
    (feed d ft tmpl h c cm m : String) (hr : Option String) (e : DuckExn) :
    (env.exec (remoteSql cfg feed d ft tmpl hr) = .raise (.other c cm) →
      (_query_with_fallback env cfg feed d ft tmpl hr).result = .error (.other c cm) ∧
      (_query_with_fallback env cfg feed d ft tmpl hr).effs =
        [.execSql (remoteSql cfg feed d ft tmpl hr)]) ∧
    ((env.exec (remoteSql cfg feed d ft tmpl (some h)) = .raise (.ioException m) ∨
      env.exec (remoteSql cfg feed d ft tmpl (some h)) = .raise (.catalogException m)) →
      hourLocalName env feed d ft h ∈ env.files →
      env.exec (hourLocalSql env feed d ft tmpl h) = .raise e →
      (_query_with_fallback env cfg feed d ft tmpl (some h)).result = .error e) := by
  constructor
  · intro hexec
    simp [_query_with_fallback, _try_query, hexec]
  · intro hio hmem hexec2
    rcases hio with hio | hio <;>
      simp [_query_with_fallback, _try_query, hio, fallbackHour, hmem, conn_execute, hexec2]

/-- Witness for C1: a `RuntimeError` raised remotely propagates with no
fallback I/O, and when the fallback's second (local) execution raises an I/O
error it, too, propagates — there is no third attempt. -/
theorem C1_fallback_trigger_classes_witness :
    (_query_with_fallback
      { exec := fun _ => .raise (.other "RuntimeError" "boom"), gsutilLs := fun _ => [],
        files := [], downloadOk := fun _ _ => false, tmpdir := "/tmp",
        today := "2025-01-15", now := 0, strptimeYmd := fun _ => none }
      {} "kalshi" "2025-01-15" "trade" "{path}" none).result =
        .error (.other "RuntimeError" "boom") ∧
    (_query_with_fallback
      { exec := fun _ => .raise (.ioException "connect fail"), gsutilLs := fun _ => [],
        files := ["/tmp/ssmd_kalshi_2025-01-15_trade_1400.parquet"],
        downloadOk := fun _ _ => false, tmpdir := "/tmp",
        today := "2025-01-15", now := 0, strptimeYmd := fun _ => none }
      {} "kalshi" "2025-01-15" "trade" "{path}" (some "1400")).result =
        .error (.ioException "connect fail") :=
  ⟨((C1_fallback_trigger_classes
      { exec := fun _ => .raise (.other "RuntimeError" "boom"), gsutilLs := fun _ => [],
        files := [], downloadOk := fun _ _ => false, tmpdir := "/tmp",
        today := "2025-01-15", now := 0, strptimeYmd := fun _ => none }
      {} "kalshi" "2025-01-15" "trade" "{path}" "1400" "RuntimeError" "boom" "m" none
      (.ioException "x")).1 (by rfl)).1,
   (C1_fallback_trigger_classes
      { exec := fun _ => .raise (.ioException "connect fail"), gsutilLs := fun _ => [],
        files := ["/tmp/ssmd_kalshi_2025-01-15_trade_1400.parquet"],
        downloadOk := fun _ _ => false, tmpdir := "/tmp",
        today := "2025-01-15", now := 0, strptimeYmd := fun _ => none }
      {} "kalshi" "2025-01-15" "trade" "{path}" "1400" "c" "cm" "connect fail" none
      (.ioException "connect fail")).2 (Or.inl (by rfl)) (by decide) (by rfl)⟩

theorem globLoop_all_absent_fail (env : Env) (feed d : String) (L : List String)
    (st : GlobSt) (hfiles : st.files = env.files)
    (hall : ∀ gf ∈ L, globLocalName env feed d gf ∉ env.files ∧
      env.downloadOk gf (globLocalName env feed d gf) = false) :
    (globLoop env feed d st L).files = env.files ∧
    (globLoop env feed d st L).local_paths = st.local_paths := by
  induction L generalizing st with
  | nil => exact ⟨hfiles, rfl⟩
  | cons gf L ih =>
    have hgf := hall gf (by simp)
    have hstep : globStep env feed d st gf =
        ⟨st.files, st.local_paths, st.effs ++ [.download gf (globLocalName env feed d gf)]⟩ := by
      unfold globStep
      rw [hfiles]
      simp [hgf.1, hgf.2]
    have hrest : ∀ gf' ∈ L, globLocalName env feed d gf' ∉ env.files ∧
        env.downloadOk gf' (globLocalName env feed d gf') = false :=
      fun gf' hm => hall gf' (by simp [hm])
    show (globLoop env feed d (globStep env feed d st gf) L).files = env.files ∧
      (globLoop env feed d (globStep env feed d st gf) L).local_paths = st.local_paths
    rw [hstep]
    exact ih _ (by simpa using hfiles) hrest

/-- C2: when the remote execution fails with an engine I/O error and the
fallback finds no usable data, `_query_with_fallback` returns an empty row
list rather than raising: with the hour unset, both when no listed remote
object matches the `.parquet` extension and the `/<fileType>_` name pattern
and when every matching object is absent locally and its download attempt
leaves no file; and with the hour set, when the one cache file is absent and
stays absent after the download attempt. -/
theorem C2_fallback_empty_results (env : Env) (cfg : Config)
    (feed d ft tmpl h m m' m'' : String) :
    (env.exec (remoteSql cfg feed d ft tmpl none) = .raise (.ioException m) →
      matchingFiles env cfg feed d ft = [] →
      (_query_with_fallback env cfg feed d ft tmpl none).result = .ok []) ∧
    (env.exec (remoteSql cfg feed d ft tmpl none) = .raise (.ioException m') →
      (∀ gf ∈ matchingFiles env cfg feed d ft,
        globLocalName env feed d gf ∉ env.files ∧
        env.downloadOk gf (globLocalName env feed d gf) = false) →
      (_query_with_fallback env cfg feed d ft tmpl none).result = .ok []) ∧
    (env.exec (remoteSql cfg feed d ft tmpl (some h)) = .raise (.ioException m'') →
      hourLocalName env feed d ft h ∉ env.files →
      env.downloadOk ((gcs_parquet_path cfg feed d ft (some h)).replace "s3://" "gs://")
        (hourLocalName env feed d ft h) = false →
      (_query_with_fallback env cfg feed d ft tmpl (some h)).result = .ok []) := by
  refine ⟨?_, ?_, ?_⟩
  · intro hexec hmatch
    simp [_query_with_fallback, _try_query, hexec, fallbackGlob, hmatch]
  · intro hexec hall
    rcases hmatch : matchingFiles env cfg feed d ft with _ | ⟨gf, L⟩
    · simp [_query_with_fallback, _try_query, hexec, fallbackGlob, hmatch]
    · have hloop := globLoop_all_absent_fail env feed d (gf :: L)
        ⟨env.files, [], []⟩ rfl (hmatch ▸ hall)
      simp [_query_with_fallback, _try_query, hexec, fallbackGlob, hmatch, hloop.2]
  · intro hexec habsent hdl
    simp [_query_with_fallback, _try_query, hexec, fallbackHour, habsent, hdl]

/-- Witness for C2: with a remote I/O failure, an empty remote listing yields
an empty row list, and with the hour set, a failing download yields an empty
row list. -/
theorem C2_fallback_empty_results_witness :
    (_query_with_fallback
      { exec := fun _ => .raise (.ioException "connect fail"), gsutilLs := fun _ => [],
        files := [], downloadOk := fun _ _ => false, tmpdir := "/tmp",
        today := "2025-01-15", now := 0, strptimeYmd := fun _ => none }
      {} "kalshi" "2025-01-15" "trade" "{path}" none).result = .ok [] ∧
    (_query_with_fallback
      { exec := fun _ => .raise (.ioException "connect fail"), gsutilLs := fun _ => [],
        files := [], downloadOk := fun _ _ => false, tmpdir := "/tmp",
        today := "2025-01-15", now := 0, strptimeYmd := fun _ => none }
      {} "kalshi" "2025-01-15" "trade" "{path}" (some "1400")).result = .ok [] :=
  ⟨(C2_fallback_empty_results
      { exec := fun _ => .raise (.ioException "connect fail"), gsutilLs := fun _ => [],
        files := [], downloadOk := fun _ _ => false, tmpdir := "/tmp",
        today := "2025-01-15", now := 0, strptimeYmd := fun _ => none }
      {} "kalshi" "2025-01-15" "trade" "{path}" "1400" "connect fail" "x" "y").1
      (by rfl) (by simp [matchingFiles, list_gcs_files]),
   (C2_fallback_empty_results
      { exec := fun _ => .raise (.ioException "connect fail"), gsutilLs := fun _ => [],
        files := [], downloadOk := fun _ _ => false, tmpdir := "/tmp",
        today := "2025-01-15", now := 0, strptimeYmd := fun _ => none }
      {} "kalshi" "2025-01-15" "trade" "{path}" "1400" "x" "y" "connect fail").2.2
      (by rfl) (by simp) (by rfl)⟩

theorem downloadTargets_append (a b : List Eff) :
    downloadTargets (a ++ b) = downloadTargets a ++ downloadTargets b := by
  simp [downloadTargets, List.filterMap_append]

theorem globLoop_mem_preserved (env : Env) (feed d : String) (L : List String)
    (st : GlobSt) (l : String) (hmem : l ∈ st.files)
    (hdl : l ∉ downloadTargets st.effs) :
    l ∈ (globLoop env feed d st L).files ∧
    l ∉ downloadTargets (globLoop env feed d st L).effs := by
  induction L generalizing st with
  | nil => exact ⟨hmem, hdl⟩
  | cons gf L ih =>
    show l ∈ (globLoop env feed d (globStep env feed d st gf) L).files ∧
      l ∉ downloadTargets (globLoop env feed d (globStep env feed d st gf) L).effs
    by_cases hc : globLocalName env feed d gf ∈ st.files
    · have hstep : globStep env feed d st gf =
          ⟨st.files, st.local_paths ++ [globLocalName env feed d gf], st.effs⟩ := by
        unfold globStep
        simp [hc]
      rw [hstep]
      exact ih _ hmem hdl
    · have hne : l ≠ globLocalName env feed d gf := fun he => hc (he ▸ hmem)
      have hdl' : l ∉ downloadTargets
          (st.effs ++ [.download gf (globLocalName env feed d gf)]) := by
        rw [downloadTargets_append]
        intro hmeml
        rcases List.mem_append.mp hmeml with hx | hx
        · exact hdl hx
        · have hsing : downloadTargets [Eff.download gf (globLocalName env feed d gf)] =
              [globLocalName env feed d gf] := rfl
          rw [hsing] at hx
          exact hne (by simpa using hx)
      cases hdk : env.downloadOk gf (globLocalName env feed d gf) with
      | false =>
        have hstep : globStep env feed d st gf =
            ⟨st.files, st.local_paths,
             st.effs ++ [.download gf (globLocalName env feed d gf)]⟩ := by
          unfold globStep
          simp [hc, hdk]
        rw [hstep]
        exact ih _ hmem hdl'
      | true =>
        have hstep : globStep env feed d st gf =
            ⟨st.files ++ [globLocalName env feed d gf],
             st.local_paths ++ [globLocalName env feed d gf],
             st.effs ++ [.download gf (globLocalName env feed d gf)]⟩ := by
          unfold globStep
          simp [hc, hdk]
        rw [hstep]
        exact ih _ (by simp [hmem]) hdl'

theorem qwf_mem_files_no_download (env : Env) (cfg : Config)
    (feed d ft tmpl : String) (hr : Option String) (l : String) (hl : l ∈ env.files) :
    l ∈ (_query_with_fallback env cfg feed d ft tmpl hr).files ∧
    l ∉ downloadTargets (_query_with_fallback env cfg feed d ft tmpl hr).effs := by
  unfold _query_with_fallback
  rcases htry : _try_query env (remoteSql cfg feed d ft tmpl hr) with e | ro
  · simp only [htry]
    simp [downloadTargets, hl]
  · rcases ro with _ | rows
    · rcases hr with _ | h
      · -- glob fallback
        simp only [htry]
        unfold fallbackGlob
        rcases hmatch : matchingFiles env cfg feed d ft with _ | ⟨gf, L⟩
        · simp [downloadTargets, hl]
        · have hloop := globLoop_mem_preserved env feed d (gf :: L)
            ⟨env.files, [], []⟩ l hl (by simp [downloadTargets])
          rcases hlp : (globLoop env feed d ⟨env.files, [], []⟩ (gf :: L)).local_paths
            with _ | ⟨p, ps⟩
          · simpa [hlp, downloadTargets_append, downloadTargets] using hloop
          · simpa [hlp, downloadTargets_append, downloadTargets] using hloop
      · -- hour fallback
        simp only [htry]
        unfold fallbackHour
        by_cases hc : hourLocalName env feed d ft h ∈ env.files
        · simp [hc, downloadTargets]
          exact hl
        · have hne : l ≠ hourLocalName env feed d ft h := fun he => hc (he ▸ hl)
          cases hdk : env.downloadOk
              ((gcs_parquet_path cfg feed d ft (some h)).replace "s3://" "gs://")
              (hourLocalName env feed d ft h) with
          | false => simp [hc, hdk, downloadTargets_append, downloadTargets, hl, hne]
          | true => simp [hc, hdk, downloadTargets_append, downloadTargets, hl, hne]
    · simp only [htry]
      simp [downloadTargets, hl]

/-- C3: the fallback's local cache is idempotent per distinct filename:
whenever a file with the deterministic cache name already exists, no download
is attempted for it during the call and the file survives the call; across
two consecutive calls every file present after the first call (in particular
every file the first call downloaded) is downloaded again by neither; and in
the hour-given branch an already-cached file is used directly — the trace is
exactly the two executions with no download, and the rows come from executing
the template against the cached local path. -/
theorem C3_local_cache_idempotent (env : Env) (cfg : Config)
    (feed d ft tmpl h m : String) (hr : Option String) (l : String) :
    (l ∈ env.files →
      l ∈ (_query_with_fallback env cfg feed d ft tmpl hr).files ∧
      l ∉ downloadTargets (_query_with_fallback env cfg feed d ft tmpl hr).effs) ∧
    (l ∈ (_query_with_fallback env cfg feed d ft tmpl hr).files →
      l ∉ downloadTargets
        (_query_with_fallback
          { env with files := (_query_with_fallback env cfg feed d ft tmpl hr).files }
          cfg feed d ft tmpl hr).effs) ∧
    (env.exec (remoteSql cfg feed d ft tmpl (some h)) = .raise (.ioException m) →
      hourLocalName env feed d ft h ∈ env.files →
      (_query_with_fallback env cfg feed d ft tmpl (some h)).effs =
        [.execSql (remoteSql cfg feed d ft tmpl (some h)),
         .execSql (hourLocalSql env feed d ft tmpl h)] ∧
      (_query_with_fallback env cfg feed d ft tmpl (some h)).result =
        conn_execute env (hourLocalSql env feed d ft tmpl h)) := by
  refine ⟨fun hl => qwf_mem_files_no_download env cfg feed d ft tmpl hr l hl, ?_, ?_⟩
  · intro hl
    exact (qwf_mem_files_no_download
      { env with files := (_query_with_fallback env cfg feed d ft tmpl hr).files }
      cfg feed d ft tmpl hr l hl).2
  · intro hexec hmem
    simp [_query_with_fallback, _try_query, hexec, fallbackHour, hmem]

/-- Witness for C3: with the cache file already on disk, a fallback call
attempts no download, keeps the file, and a second identical call attempts no
download either. -/
theorem C3_local_cache_idempotent_witness :
    ("/tmp/ssmd_kalshi_2025-01-15_trade_1400.parquet" ∈
      (_query_with_fallback
        { exec := fun _ => .raise (.ioException "connect fail"), gsutilLs := fun _ => [],
          files := ["/tmp/ssmd_kalshi_2025-01-15_trade_1400.parquet"],
          downloadOk := fun _ _ => false, tmpdir := "/tmp",
          today := "2025-01-15", now := 0, strptimeYmd := fun _ => none }
        {} "kalshi" "2025-01-15" "trade" "{path}" (some "1400")).files ∧
     "/tmp/ssmd_kalshi_2025-01-15_trade_1400.parquet" ∉
      downloadTargets
        (_query_with_fallback
          { exec := fun _ => .raise (.ioException "connect fail"), gsutilLs := fun _ => [],
            files := ["/tmp/ssmd_kalshi_2025-01-15_trade_1400.parquet"],
            downloadOk := fun _ _ => false, tmpdir := "/tmp",
            today := "2025-01-15", now := 0, strptimeYmd := fun _ => none }
          {} "kalshi" "2025-01-15" "trade" "{path}" (some "1400")).effs) :=
  (C3_local_cache_idempotent
    { exec := fun _ => .raise (.ioException "connect fail"), gsutilLs := fun _ => [],
      files := ["/tmp/ssmd_kalshi_2025-01-15_trade_1400.parquet"],
      downloadOk := fun _ _ => false, tmpdir := "/tmp",
      today := "2025-01-15", now := 0, strptimeYmd := fun _ => none }
    {} "kalshi" "2025-01-15" "trade" "{path}" "1400" "m" (some "1400")
    "/tmp/ssmd_kalshi_2025-01-15_trade_1400.parquet").1 (by simp)

theorem pyIsSpace_of_isFeedChar (c : Char) (h : isFeedChar c = true) :
    pyIsSpace c = false := by
  unfold isFeedChar at h
  rcases Bool.or_eq_true_iff.mp h with hl | hd
  · unfold Char.isLower at hl
    have h1 : (97 : UInt32) ≤ c.val := of_decide_eq_true (Bool.and_eq_true_iff.mp hl).1
    have hne : ∀ d : Char, (97 ≤ d.val → False) → decide (c = d) = false := by
      intro d hd'
      apply decide_eq_false
      rintro rfl
      exact hd' h1
    unfold pyIsSpace
    rw [hne ' ' (by decide), hne '\t' (by decide), hne '\n' (by decide),
        hne '\x0b' (by decide), hne '\x0c' (by decide), hne '\r' (by decide)]
    rfl
  · have hc : c = '-' := of_decide_eq_true hd
    subst hc
    decide

theorem takeWhile_all_append (p : Char → Bool) (f b : List Char)
    (hf : ∀ c ∈ f, p c = true) (y : Char) (hy : p y = false) :
    (f ++ y :: b).takeWhile p = f ∧ (f ++ y :: b).dropWhile p = y :: b := by
  induction f with
  | nil => simp [List.takeWhile_cons, List.dropWhile_cons, hy]
  | cons c f ih =>
    have hc := hf c (by simp)
    have ih' := ih (fun c' hm => hf c' (by simp [hm]))
    simp [List.takeWhile_cons, List.dropWhile_cons, hc, ih'.1, ih'.2]

theorem matchFeedPathAt_exact (f b : List Char) (hf0 : f ≠ [])
    (hf : ∀ c ∈ f, isFeedChar c = true) :
    matchFeedPathAt (feedPathHead ++ (f ++ ')' :: b)) = some (⟨f⟩, none, b) := by
  have hpre : feedPathHead.isPrefixOf (feedPathHead ++ (f ++ ')' :: b)) = true :=
    List.isPrefixOf_iff_prefix.mpr (List.prefix_append _ _)
  have hnospace : (f ++ ')' :: b).dropWhile pyIsSpace = f ++ ')' :: b := by
    cases f with
    | nil => exact absurd rfl hf0
    | cons c f' =>
      have hcsp := pyIsSpace_of_isFeedChar c (hf c (by simp))
      simp [List.dropWhile_cons, hcsp]
  have htw := takeWhile_all_append isFeedChar f b hf ')' (by decide)
  have hdropsp : (')' :: b).dropWhile pyIsSpace = ')' :: b := by
    simp [List.dropWhile_cons, pyIsSpace]
  unfold matchFeedPathAt
  rw [if_pos hpre, List.drop_left, hnospace, htw.1, htw.2, hdropsp]
  unfold matchAfterFeed
  rw [if_neg (by simpa [List.isEmpty_iff] using hf0)]
  rfl

theorem matchFeedPathAt_none_of_ne (c : Char) (cs : List Char) (hc : c ≠ '$') :
    matchFeedPathAt (c :: cs) = none := by
  have hnp : ¬(feedPathHead.isPrefixOf (c :: cs) = true) := by
    intro hpre
    obtain ⟨t, ht⟩ := List.isPrefixOf_iff_prefix.mp hpre
    rw [show feedPathHead = '$' :: "FEED_PATH(".data from rfl, List.cons_append] at ht
    injection ht with h1 h2
    exact hc h1.symm
  unfold matchFeedPathAt
  rw [if_neg hnp]

theorem reSubFeedPath_no_dollar (repl : String → Option String → String) (cs : List Char)
    (h : '$' ∉ cs) : reSubFeedPath repl cs = cs := by
  induction cs with
  | nil => rw [reSubFeedPath]
  | cons c cs ih =>
    have hc : c ≠ '$' := fun he => h (he ▸ List.mem_cons_self c cs)
    have h' : '$' ∉ cs := fun hm => h (List.mem_cons_of_mem _ hm)
    rw [reSubFeedPath]
    split
    · next f dd rest hm =>
      rw [matchFeedPathAt_none_of_ne c cs hc] at hm
      cases hm
    · exact congrArg (c :: ·) (ih h')

theorem reSubFeedPath_expand (repl : String → Option String → String) (a f b : List Char)
    (ha : '$' ∉ a) (hf0 : f ≠ []) (hf : ∀ c ∈ f, isFeedChar c = true) (hb : '$' ∉ b) :
    reSubFeedPath repl (a ++ (feedPathHead ++ (f ++ ')' :: b))) =
      a ++ ((repl ⟨f⟩ none).data ++ b) := by
  induction a with
  | nil =>
    simp only [List.nil_append]
    have hfh : feedPathHead ++ (f ++ ')' :: b) =
        '$' :: ("FEED_PATH(".data ++ (f ++ ')' :: b)) := by
      rw [show feedPathHead = '$' :: "FEED_PATH(".data from rfl, List.cons_append]
    have hexact : matchFeedPathAt (feedPathHead ++ (f ++ ')' :: b)) = some (⟨f⟩, none, b) :=
      matchFeedPathAt_exact f b hf0 hf
    rw [hfh] at hexact ⊢
    rw [reSubFeedPath]
    split
    · next f' d' rest hm =>
      rw [hexact] at hm
      injection hm with hm
      injection hm with h1 hm
      injection hm with h2 h3
      subst h1
      subst h2
      subst h3
      rw [reSubFeedPath_no_dollar repl b hb]
    · next hm =>
      rw [hexact] at hm
      cases hm
  | cons c a ih =>
    have hc : c ≠ '$' := fun he => ha (he ▸ List.mem_cons_self _ _)
    have ha' : '$' ∉ a := fun hm => ha (List.mem_cons_of_mem _ hm)
    simp only [List.cons_append]
    rw [reSubFeedPath]
    split
    · next f' d' rest hm =>
      rw [matchFeedPathAt_none_of_ne c _ hc] at hm
      cases hm
    · exact congrArg (c :: ·) (ih ha')

/-- C10: a `$FEED_PATH` macro naming a feed outside the enumerated set is
expanded permissively by `query_raw` — the unknown feed string itself becomes
the path prefix, mirroring the path builder's permissive default — and the
expanded query proceeds to execution: the I/O trace is the connection followed
by the execution of the expanded SQL, and the result is never the structured
unknown-feed error that `query_trades` and `query_prices` return. -/
theorem C10_raw_unknown_feed_macro_permissive (env : Env) (cfg : Config)
    (a f b : String) (dso : Option String)
    (ha : '$' ∉ a.data) (hb : '$' ∉ b.data) (hf0 : f.data ≠ [])
    (hf : ∀ c ∈ f.data, isFeedChar c = true)
    (hunk : cfg.feed_paths.lookup f = none) :
    expandFeedPathMacros cfg (dateOrToday env dso) (a ++ "$FEED_PATH(" ++ f ++ ")" ++ b) =
      a ++ (("s3://" ++ cfg.gcs_bucket ++ "/" ++ f ++ "/" ++ dateOrToday env dso ++ "/") ++ b) ∧
    (query_raw env cfg (a ++ "$FEED_PATH(" ++ f ++ ")" ++ b) none dso).2 =
      [.connect, .execSql (enforceLimit
        (a ++ (("s3://" ++ cfg.gcs_bucket ++ "/" ++ f ++ "/" ++ dateOrToday env dso ++ "/") ++ b)))] ∧
    (∀ msg, (query_raw env cfg (a ++ "$FEED_PATH(" ++ f ++ ")" ++ b) none dso).1 ≠
      .jsonError msg) := by
  have hdata : (a ++ "$FEED_PATH(" ++ f ++ ")" ++ b).data =
      a.data ++ (feedPathHead ++ (f.data ++ ')' :: b.data)) := by
    simp only [String.data_append, List.append_assoc]
    rfl
  have hexp := reSubFeedPath_expand (expand_feed_path cfg (dateOrToday env dso))
    a.data f.data b.data ha hf0 hf hb
  have heta : (⟨f.data⟩ : String) = f := rfl
  rw [heta] at hexp
  have h2 : expand_feed_path cfg (dateOrToday env dso) f none =
      "s3://" ++ cfg.gcs_bucket ++ "/" ++ f ++ "/" ++ dateOrToday env dso ++ "/" := by
    unfold expand_feed_path
    rw [hunk]
    rfl
  have hexpand : expandFeedPathMacros cfg (dateOrToday env dso)
      (a ++ "$FEED_PATH(" ++ f ++ ")" ++ b) =
      a ++ (("s3://" ++ cfg.gcs_bucket ++ "/" ++ f ++ "/" ++ dateOrToday env dso ++ "/") ++ b) := by
    unfold expandFeedPathMacros
    rw [hdata, hexp, h2]
    rfl
  refine ⟨hexpand, ?_, ?_⟩
  · simp only [query_raw, hexpand]
    split <;> rfl
  · intro msg
    simp only [query_raw]
    split <;> simp

/-- Witness for C10: the macro naming the unknown feed `deribit` expands to a
path using `deribit` itself as the prefix, and `query_raw` executes the
expanded SQL instead of producing an unknown-feed error. -/
theorem C10_raw_unknown_feed_macro_permissive_witness :
    expandFeedPathMacros {}
        (dateOrToday
          { exec := fun _ => .ok [], gsutilLs := fun _ => [], files := [],
            downloadOk := fun _ _ => false, tmpdir := "/tmp", today := "2025-02-03",
            now := 0, strptimeYmd := fun _ => none } (some "2025-01-15"))
        ("SELECT * FROM read_parquet(" ++ "$FEED_PATH(" ++ "deribit" ++ ")" ++ ") LIMIT 5") =
      "SELECT * FROM read_parquet(" ++
        (("s3://" ++ "ssmd-data" ++ "/" ++ "deribit" ++ "/" ++
          dateOrToday
            { exec := fun _ => .ok [], gsutilLs := fun _ => [], files := [],
              downloadOk := fun _ _ => false, tmpdir := "/tmp", today := "2025-02-03",
              now := 0, strptimeYmd := fun _ => none } (some "2025-01-15") ++ "/") ++
          ") LIMIT 5") ∧
    (∀ msg,
      (query_raw
        { exec := fun _ => .ok [], gsutilLs := fun _ => [], files := [],
          downloadOk := fun _ _ => false, tmpdir := "/tmp", today := "2025-02-03",
          now := 0, strptimeYmd := fun _ => none }
        {} ("SELECT * FROM read_parquet(" ++ "$FEED_PATH(" ++ "deribit" ++ ")" ++ ") LIMIT 5")
        none (some "2025-01-15")).1 ≠ .jsonError msg) :=
  ⟨(C10_raw_unknown_feed_macro_permissive
      { exec := fun _ => .ok [], gsutilLs := fun _ => [], files := [],
        downloadOk := fun _ _ => false, tmpdir := "/tmp", today := "2025-02-03",
        now := 0, strptimeYmd := fun _ => none }
      {} "SELECT * FROM read_parquet(" "deribit" ") LIMIT 5" (some "2025-01-15")
      (by decide) (by decide) (by decide) (by decide) (by decide)).1,
   (C10_raw_unknown_feed_macro_permissive
      { exec := fun _ => .ok [], gsutilLs := fun _ => [], files := [],
        downloadOk := fun _ _ => false, tmpdir := "/tmp", today := "2025-02-03",
        now := 0, strptimeYmd := fun _ => none }
      {} "SELECT * FROM read_parquet(" "deribit" ") LIMIT 5" (some "2025-01-15")
      (by decide) (by decide) (by decide) (by decide) (by decide)).2.2⟩

end Ssmd
